import Mathlib

/-!
Shallow embedding of the two Dota 2 utilities: the ward tracker
(`Detectar wards.py`) and the killsteal assistant (`kill-steal.py`).
Screen capture, the YOLO detector, the GUI and keyboard automation are
external collaborators; the embedded functions are the pure decision
logic they drive.  Python floats are modelled as rationals and the
per-tick wall clock as a single rational `now` parameter.
-/

namespace DotaUtils

/-- Region classifier `obter_regiao_do_mapa`: normalizes the pixel
coordinates by the screen dimensions and walks a fixed grid of named
bands.  The Python body ends with an unreachable
`return "Região Indefinida"` after the exhaustive if/elif/else chain;
that dead line has no corresponding branch here. -/
def obter_regiao_do_mapa (x y largura_tela altura_tela : ℚ) : String :=
  if largura_tela = 0 ∨ altura_tela = 0 then "Região Desconhecida"
  else
    let nx := x / largura_tela
    let ny := y / altura_tela
    if ny < 0.33 then
      if nx < 0.33 then "Top Lane (Radiant)"
      else if nx < 0.66 then "Top Jungle (Radiant/Mid)"
      else "Top Lane/Jungle (Dire)"
    else if ny < 0.66 then
      if nx < 0.15 then "Jungle (Radiant)"
      else if nx < 0.33 then "Mid Lane (Radiant Side)"
      else if nx < 0.66 then "Mid Lane (Centro)"
      else if nx < 0.85 then "Mid Lane (Dire Side)"
      else "Jungle (Dire)"
    else
      if nx < 0.33 then "Bot Lane/Jungle (Radiant)"
      else if nx < 0.66 then "Bot Jungle (Dire/Mid)"
      else "Bot Lane (Dire)"

/-- The eleven named grid labels of `obter_regiao_do_mapa`. -/
def GRID_LABELS : List String :=
  ["Top Lane (Radiant)", "Top Jungle (Radiant/Mid)", "Top Lane/Jungle (Dire)",
   "Jungle (Radiant)", "Mid Lane (Radiant Side)", "Mid Lane (Centro)",
   "Mid Lane (Dire Side)", "Jungle (Dire)",
   "Bot Lane/Jungle (Radiant)", "Bot Jungle (Dire/Mid)", "Bot Lane (Dire)"]

/-- Duplicate-suppression window: `DUPLICATE_THRESHOLD_SECONDS` is 2.0 seconds. -/
def DUPLICATE_THRESHOLD_SECONDS : ℚ := 2

/-- The `ITEM_DURATIONS` dict, as a partial lookup (seconds). -/
def ITEM_DURATIONS : String → Option ℚ
  | "Observer Ward" => some 360
  | "Sentry Ward" => some 420
  | "Smoke of Deceit" => some 0
  | _ => none

/-- One entry of the global `tracked_items` list. -/
structure TrackedItem where
  id : String
  name : String
  expiry : ℚ
  region : String
  added_time : ℚ
  deriving DecidableEq

/-- A detection forwarded to the tracker: label (already filtered by
confidence and by class membership upstream) plus pixel center. -/
structure RawDet where
  name : String
  cx : ℚ
  cy : ℚ
  deriving DecidableEq

/-- The intermediate per-pass detection dict with fields name, region and time. -/
structure DetectionRec where
  name : String
  region : String
  time : ℚ
  deriving DecidableEq

/-- A console log line from the tracker: insertion notice (`inserted =
true`) or zero-duration event notice (`inserted = false`). -/
structure LogEvent where
  name : String
  region : String
  inserted : Bool
  deriving DecidableEq

/-- The duplicate scan inside `detectar_itens`: some stored item has the
same name, the same region and `abs(time_diff) < 2.0`. -/
def is_duplicate (store : List TrackedItem) (name region : String) (now : ℚ) : Bool :=
  store.any (fun it =>
    it.name == name && it.region == region &&
      decide (|now - it.added_time| < DUPLICATE_THRESHOLD_SECONDS))

/-- Builds the new `tracked_items` entry appended on insertion. -/
def mk_tracked (d : DetectionRec) (duration : ℚ) : TrackedItem :=
  { id := d.name ++ "_" ++ d.region ++ "_" ++ toString d.time
    name := d.name
    expiry := d.time + duration
    region := d.region
    added_time := d.time }

/-- One detection pass of `detectar_itens`, after the external capture
and YOLO steps: every forwarded detection is classified into a region,
checked for duplicates against the store AS IT WAS AT THE START OF THE
PASS (the in-pass `detections` list is not consulted), and the
surviving detections with positive duration are appended to the store.
Returns the new store and the log lines printed. -/
def detectar_itens (store : List TrackedItem) (dets : List RawDet)
    (now largura altura : ℚ) : List TrackedItem × List LogEvent :=
  let detections : List DetectionRec := dets.filterMap (fun d =>
    match ITEM_DURATIONS d.name with
    | none => none
    | some _ =>
      let regiao := obter_regiao_do_mapa d.cx d.cy largura altura
      if is_duplicate store d.name regiao now then none
      else some ⟨d.name, regiao, now⟩)
  detections.foldl (fun acc det =>
    match ITEM_DURATIONS det.name with
    | some duration =>
      if 0 < duration then
        (acc.1 ++ [mk_tracked det duration], acc.2 ++ [⟨det.name, det.region, true⟩])
      else (acc.1, acc.2 ++ [⟨det.name, det.region, false⟩])
    | none => acc) (store, [])

/-- Remaining seconds of an item: expiry minus the current time. -/
def remaining_seconds (it : TrackedItem) (now : ℚ) : ℚ := it.expiry - now

/-- Formats the truncated remaining seconds as minutes and zero-padded seconds. -/
def format_remaining (r : ℚ) : String :=
  let t : ℕ := (⌊r⌋).toNat
  let minutes := t / 60
  let seconds := t % 60
  toString minutes ++ ":" ++
    (if seconds < 10 then "0" ++ toString seconds else toString seconds)

/-- The store-and-display core of `atualizar_overlay`: keeps exactly the
items with strictly positive remaining time (the expired ones are
dropped from the global list) and renders one overlay message per kept
item. -/
def atualizar_overlay (store : List TrackedItem) (now : ℚ) :
    List TrackedItem × List String :=
  let valid := store.filter (fun it => decide (0 < remaining_seconds it now))
  (valid, valid.map (fun it =>
    it.name ++ " [" ++ it.region ++ "]: " ++ format_remaining (remaining_seconds it now)))

example : obter_regiao_do_mapa 1 1 10 10 = "Top Lane (Radiant)" :=
  of_decide_eq_true (by with_unfolding_all rfl)
example : obter_regiao_do_mapa 5 5 10 10 = "Mid Lane (Centro)" :=
  of_decide_eq_true (by with_unfolding_all rfl)
example :
    (detectar_itens [] [⟨"Observer Ward", 1, 1⟩] 0 10 10).1 =
      [⟨"Observer Ward_Top Lane (Radiant)_0", "Observer Ward", 360, "Top Lane (Radiant)", 0⟩] :=
  of_decide_eq_true (by with_unfolding_all rfl)
example :
    (detectar_itens [⟨"Observer Ward_Top Lane (Radiant)_0", "Observer Ward", 360, "Top Lane (Radiant)", 0⟩]
        [⟨"Observer Ward", 1, 1⟩] 1 10 10).1 =
      [⟨"Observer Ward_Top Lane (Radiant)_0", "Observer Ward", 360, "Top Lane (Radiant)", 0⟩] :=
  of_decide_eq_true (by with_unfolding_all rfl)
example :
    atualizar_overlay [⟨"Observer Ward_Top Lane (Radiant)_0", "Observer Ward", 360, "Top Lane (Radiant)", 0⟩] 361 =
      ([], []) :=
  of_decide_eq_true (by with_unfolding_all rfl)
example :
    (atualizar_overlay [⟨"w", "Observer Ward", 360, "Top Lane (Radiant)", 0⟩] 100).2 =
      ["Observer Ward [Top Lane (Radiant)]: 4:20"] :=
  of_decide_eq_true (by with_unfolding_all rfl)

/-! ## Killsteal assistant (`kill-steal.py`) -/

/-- The `Ability` class: name, key, damage, mana cost, cooldown and the
`last_cast_time` stamp. -/
structure Ability where
  name : String
  key : String
  damage : ℚ
  mana_cost : ℚ
  cooldown : ℚ
  last_cast_time : ℚ
  deriving DecidableEq

/-- Readiness check of `Ability.is_ready`: now minus the last cast time exceeds the cooldown. -/
def Ability.is_ready (a : Ability) (now : ℚ) : Bool :=
  decide (now - a.last_cast_time > a.cooldown)

/-- Effective damage of `Ability.get_effective_damage`: damage reduced by magic resistance. -/
def Ability.get_effective_damage (a : Ability) (magic_resistance : ℚ) : ℚ :=
  a.damage * (1 - magic_resistance)

/-- The `Enemy` class. -/
structure Enemy where
  name : String
  health : ℚ
  magic_resistance : ℚ
  deriving DecidableEq

/-- Alive check of `Enemy.is_alive`: health is positive. -/
def Enemy.is_alive (e : Enemy) : Bool := decide (e.health > 0)

/-- Stub `Enemy.is_enemy`: the source always returns `True`. -/
def Enemy.is_enemy (_e : Enemy) (_hero_name : String) : Bool := true

/-- The `Hero` class: the `abilities` dict is modelled as a list in
insertion order, keyed by the (unique) ability names. -/
structure Hero where
  name : String
  abilities : List Ability
  mana : ℚ
  channeling : Bool
  invisible : Bool
  deriving DecidableEq

/-- A cast command handed to the actuator (`GameInterface.cast_ability`
receives hero, ability and target) together with the boolean it
returned. -/
structure CastEvent where
  heroName : String
  abilityName : String
  targetName : String
  success : Bool
  deriving DecidableEq

/-- Result of `Hero.cast`: the returned boolean plus the (possibly
updated) hero and ability and the actuator calls that were issued. -/
structure CastResult where
  success : Bool
  hero : Hero
  ability : Ability
  events : List CastEvent
  deriving DecidableEq

/-- Cast attempt `Hero.cast`: re-checks readiness and mana, then calls the actuator;
ONLY on actuator success does it stamp `ability.last_cast_time` and
deduct the mana cost.  `act` is the boolean the external actuator
returns. -/
def Hero.cast (h : Hero) (a : Ability) (target : Enemy) (act : Bool) (now : ℚ) :
    CastResult :=
  if !(a.is_ready now) || decide (h.mana < a.mana_cost) then
    ⟨false, h, a, []⟩
  else if act then
    ⟨true, { h with mana := h.mana - a.mana_cost },
      { a with last_cast_time := now }, [⟨h.name, a.name, target.name, true⟩]⟩
  else
    ⟨false, h, a, [⟨h.name, a.name, target.name, false⟩]⟩

/-- Gate `KillStealManager.can_cast_skill`: mana gate and cooldown gate. -/
def can_cast_skill (hero : Hero) (skill : Ability) (now : ℚ) : Bool :=
  decide (hero.mana ≥ skill.mana_cost) && skill.is_ready now

/-- Gate `KillStealManager.should_cast_skill`: lethality check against
effective damage. -/
def should_cast_skill (hero : Hero) (enemy : Enemy) (skill : Ability) : Bool :=
  decide (enemy.health < skill.get_effective_damage enemy.magic_resistance)

/-- The mutable state of `KillStealManager` that `killsteal` touches. -/
structure KSState where
  hero : Hero
  enemies : List Enemy
  last_check_time : ℚ
  killsteal_cooldown : ℚ
  deriving DecidableEq

/-- Writes the updated ability object back into the ability dict of the hero
(in Python the dict entry is the very object mutated by `cast`). -/
def set_ability (h : Hero) (a : Ability) : Hero :=
  { h with abilities := h.abilities.map (fun b => if b.name == a.name then a else b) }

/-- The inner ability loop of `KillStealManager.killsteal` for one
enemy: walk the abilities of the hero in order; on the first one passing
`can_cast_skill` and `should_cast_skill`, attempt `Hero.cast`; on
success stop with the updated hero/ability, on failure keep scanning. -/
def killsteal_abilities (hero : Hero) (e : Enemy) (now : ℚ) (act : Bool) :
    List Ability → Option (Hero × Ability) × List CastEvent
  | [] => (none, [])
  | a :: rest =>
    if can_cast_skill hero a now && should_cast_skill hero e a then
      let r := Hero.cast hero a e act now
      if r.success then (some (r.hero, r.ability), r.events)
      else
        let (res, evs) := killsteal_abilities hero e now act rest
        (res, r.events ++ evs)
    else killsteal_abilities hero e now act rest

/-- The outer enemy loop of `KillStealManager.killsteal`: enemies in
source order, alive (and `is_enemy`, a stub `True`) only. -/
def killsteal_enemies (hero : Hero) (now : ℚ) (act : Bool) :
    List Enemy → Option (Hero × Ability) × List CastEvent
  | [] => (none, [])
  | e :: rest =>
    if e.is_alive && e.is_enemy hero.name then
      match killsteal_abilities hero e now act hero.abilities with
      | (some r, evs) => (some r, evs)
      | (none, evs) =>
        let (res, evs2) := killsteal_enemies hero now act rest
        (res, evs ++ evs2)
    else killsteal_enemies hero now act rest

/-- Tick body `KillStealManager.killsteal`: global-cooldown gate, channeling and
invisibility gates, then the enemy/ability scan; on a successful cast
the ability stamp is written back and `last_check_time` is set to
`now`.  Returns the new manager state and the actuator calls issued. -/
def killsteal (st : KSState) (now : ℚ) (act : Bool) : KSState × List CastEvent :=
  if now - st.last_check_time < st.killsteal_cooldown then (st, [])
  else if st.hero.channeling || st.hero.invisible then (st, [])
  else
    match killsteal_enemies st.hero now act st.enemies with
    | (some (h, a), evs) =>
      ({ st with hero := set_ability h a, last_check_time := now }, evs)
    | (none, evs) => (st, evs)

/-- Modelled from the spec: the selection rule of §4.2 in the words of the spec — the first (enemy, ability) pair, enemies in source order and
abilities in the fixed hero order, alive enemies only, satisfying
`hero.mana >= ability.manaCost`, `ability.isReady` and
`enemy.health < ability.damage * (1 - enemy.magicResistance)`. -/
def spec_qualifies (hero : Hero) (e : Enemy) (now : ℚ) (a : Ability) : Bool :=
  decide (hero.mana ≥ a.mana_cost) && a.is_ready now &&
    decide (e.health < a.damage * (1 - e.magic_resistance))

/-- Modelled from the spec (continued): the first qualifying
(enemy, ability) pair. -/
def first_qualifying_pair (hero : Hero) (now : ℚ) :
    List Enemy → Option (Enemy × Ability)
  | [] => none
  | e :: rest =>
    if e.is_alive then
      match hero.abilities.find? (spec_qualifies hero e now) with
      | some a => some (e, a)
      | none => first_qualifying_pair hero now rest
    else first_qualifying_pair hero now rest

/-! ## ConfigManager (`kill-steal.py`) -/

/-- JSON-like values as produced by `json.load`: scalars, arrays and
objects (Python dicts with unique keys, in insertion order). -/
inductive Json where
  | str (s : String)
  | num (q : ℚ)
  | bool (b : Bool)
  | arr (elems : List Json)
  | obj (fields : List (String × Json))

/-- Python dict lookup `d[k]` / `k in d` on the assoc-list model. -/
def lookup_field (d : List (String × Json)) (k : String) : Option Json :=
  match d with
  | [] => none
  | (k1, v1) :: rest => if k1 == k then some v1 else lookup_field rest k

/-- Python dict assignment `d[k] = v`: replace in place when the key
exists, otherwise append. -/
def set_field (d : List (String × Json)) (k : String) (v : Json) :
    List (String × Json) :=
  match d with
  | [] => [(k, v)]
  | (k1, v1) :: rest =>
    if k1 == k then (k1, v) :: rest else (k1, v1) :: set_field rest k v

mutual

/-- The value stored for key `k` by one step of
`ConfigManager._deep_update`: if both the incoming value and the
existing value at `k` are dicts, merge them recursively, otherwise the
incoming value replaces whatever was there. -/
def merged_value (dv : Option Json) : Json → Json
  | Json.obj uu =>
    match dv with
    | some (Json.obj dd) => Json.obj (deep_update dd uu)
    | _ => Json.obj uu
  | v => v

/-- Merge loop of `ConfigManager._deep_update`: iterate over the items of
the update dict in order, updating the base dict in place. -/
def deep_update (d : List (String × Json)) :
    List (String × Json) → List (String × Json)
  | [] => d
  | (k, v) :: rest => deep_update (set_field d k (merged_value (lookup_field d k) v)) rest

end

/-- The built-in `DEFAULT_CONFIG` dict of `ConfigManager`. -/
def DEFAULT_CONFIG : List (String × Json) :=
  [("dota_window_title", Json.str "Dota 2"),
   ("check_interval", Json.num 0.5),
   ("killsteal_cooldown", Json.num 3.0),
   ("enable_hotkey", Json.str "F8"),
   ("debug_mode", Json.bool false),
   ("use_console_commands", Json.bool true),
   ("console_command_prefix", Json.str "dota_execute"),
   ("hero_abilities", Json.obj
     [("npc_dota_hero_lina", Json.arr
       [Json.obj [("name", Json.str "lina_dragon_slave"), ("key", Json.str "q"),
                  ("damage", Json.num 280), ("mana_cost", Json.num 100)],
        Json.obj [("name", Json.str "lina_light_strike_array"), ("key", Json.str "w"),
                  ("damage", Json.num 250), ("mana_cost", Json.num 110)],
        Json.obj [("name", Json.str "lina_laguna_blade"), ("key", Json.str "r"),
                  ("damage", Json.num 850), ("mana_cost", Json.num 280)]]),
      ("npc_dota_hero_lion", Json.arr
       [Json.obj [("name", Json.str "lion_impale"), ("key", Json.str "q"),
                  ("damage", Json.num 260), ("mana_cost", Json.num 110)],
        Json.obj [("name", Json.str "lion_finger_of_death"), ("key", Json.str "r"),
                  ("damage", Json.num 800), ("mana_cost", Json.num 250)]])])]

/-- Outcome of the external file read in `_load_config`: `none` — the
configuration file does not exist; `some none` — it exists but
`json.load` (or the subsequent merge) raised; `some (some j)` — it
parsed to the JSON value `j`. -/
def load_config : Option (Option Json) → List (String × Json)
  | some (some (Json.obj u)) => deep_update DEFAULT_CONFIG u
  | _ => DEFAULT_CONFIG

/-! ## Helper lemmas -/

theorem regiao_grid (x y w h : ℚ) (hw : w ≠ 0) (hh : h ≠ 0) :
    obter_regiao_do_mapa x y w h ∈ GRID_LABELS := by
  simp only [obter_regiao_do_mapa]
  split_ifs <;> simp_all [GRID_LABELS]

theorem regiao_desconhecida_iff (x y w h : ℚ) :
    obter_regiao_do_mapa x y w h = "Região Desconhecida" ↔ (w = 0 ∨ h = 0) := by
  simp only [obter_regiao_do_mapa]
  split_ifs with h1 <;> simp_all

theorem regiao_ne_indefinida (x y w h : ℚ) :
    obter_regiao_do_mapa x y w h ≠ "Região Indefinida" := by
  simp only [obter_regiao_do_mapa]
  split_ifs <;> simp

theorem regiao_ne_desconhecida (x y w h : ℚ) (hw : w ≠ 0) (hh : h ≠ 0) :
    obter_regiao_do_mapa x y w h ≠ "Região Desconhecida" := by
  rw [ne_eq, regiao_desconhecida_iff]
  simp [hw, hh]

/-! ## Claims -/

/-- C4 counterexample: the claim asserts that the explicit fallback
label of `obter_regiao_do_mapa` is reachable for some coordinate whose
normalized position lies in the unit square; in fact no such input
yields either non-grid label — the grid chain is exhaustive, the
trailing `"Região Indefinida"` line is dead code, and
`"Região Desconhecida"` needs a zero screen dimension. -/
theorem C4_fallback_unreachable :
    ¬ ∃ x y w h : ℚ, 0 < w ∧ 0 < h ∧
      0 ≤ x / w ∧ x / w ≤ 1 ∧ 0 ≤ y / h ∧ y / h ≤ 1 ∧
      (obter_regiao_do_mapa x y w h = "Região Indefinida" ∨
       obter_regiao_do_mapa x y w h = "Região Desconhecida") := by
  rintro ⟨x, y, w, h, hw, hh, -, -, -, -, hfall | hfall⟩
  · exact regiao_ne_indefinida x y w h hfall
  · exact regiao_ne_desconhecida x y w h (ne_of_gt hw) (ne_of_gt hh) hfall

/-- C4 (amended): the region classifier is total and deterministic on
the unit square — every coordinate whose normalized position lies in
`[0,1] × [0,1]` (with positive dimensions) yields exactly one of the
eleven named grid regions, and repeated calls agree — but neither
fallback label is ever returned there: the trailing fallback is
unreachable dead code. -/
theorem C4_region_total_deterministic (x y w h : ℚ) (hw : 0 < w) (hh : 0 < h)
    (hx0 : 0 ≤ x / w) (hx1 : x / w ≤ 1) (hy0 : 0 ≤ y / h) (hy1 : y / h ≤ 1) :
    obter_regiao_do_mapa x y w h ∈ GRID_LABELS ∧
    obter_regiao_do_mapa x y w h = obter_regiao_do_mapa x y w h ∧
    obter_regiao_do_mapa x y w h ≠ "Região Indefinida" ∧
    obter_regiao_do_mapa x y w h ≠ "Região Desconhecida" :=
  ⟨regiao_grid x y w h (ne_of_gt hw) (ne_of_gt hh), rfl,
   regiao_ne_indefinida x y w h,
   regiao_ne_desconhecida x y w h (ne_of_gt hw) (ne_of_gt hh)⟩

/-- C4 witness: the amended theorem at the concrete coordinate
(1,1) on a 10×10 screen. -/
theorem C4_witness :
    obter_regiao_do_mapa 1 1 10 10 ∈ GRID_LABELS ∧
    obter_regiao_do_mapa 1 1 10 10 = obter_regiao_do_mapa 1 1 10 10 ∧
    obter_regiao_do_mapa 1 1 10 10 ≠ "Região Indefinida" ∧
    obter_regiao_do_mapa 1 1 10 10 ≠ "Região Desconhecida" :=
  C4_region_total_deterministic 1 1 10 10 (by norm_num) (by norm_num)
    (by norm_num) (by norm_num) (by norm_num) (by norm_num)

/-- C10: beyond the unit square, for every coordinate pair and positive
dimensions the classifier returns one of the eleven grid labels, it
returns `"Região Desconhecida"` exactly when a dimension is zero, and
the trailing `"Região Indefinida"` fallback is returned for no input. -/
theorem C10_region_total_everywhere :
    ∀ x y w h : ℚ,
      (0 < w → 0 < h → obter_regiao_do_mapa x y w h ∈ GRID_LABELS) ∧
      (obter_regiao_do_mapa x y w h = "Região Desconhecida" ↔ (w = 0 ∨ h = 0)) ∧
      obter_regiao_do_mapa x y w h ≠ "Região Indefinida" :=
  fun x y w h =>
    ⟨fun hw hh => regiao_grid x y w h (ne_of_gt hw) (ne_of_gt hh),
     regiao_desconhecida_iff x y w h,
     regiao_ne_indefinida x y w h⟩

/-- C10 witness: the normalized position (12/10, 34/10) lies outside
the unit square, yet a grid label is produced. -/
theorem C10_witness :
    obter_regiao_do_mapa 12 34 10 10 ∈ GRID_LABELS :=
  (C10_region_total_everywhere 12 34 10 10).1 (by norm_num) (by norm_num)

/-- C5: the expiry sweep at time `now` keeps exactly the entries with
`expiresAt > now` (every entry with `expiresAt <= now` is removed), and
every remaining time it computes for display is strictly positive. -/
theorem C5_sweep_expired (store : List TrackedItem) (now : ℚ) :
    (atualizar_overlay store now).1 =
      store.filter (fun it => decide (¬ it.expiry ≤ now)) ∧
    ∀ it ∈ (atualizar_overlay store now).1, 0 < remaining_seconds it now := by
  constructor
  · apply List.filter_congr
    intro it _
    simp [remaining_seconds, sub_pos, decide_eq_decide, not_le]
  · intro it hit
    simp only [atualizar_overlay, List.mem_filter] at hit
    exact of_decide_eq_true hit.2

/-- C5 witness: an Observer Ward placed at t=0, swept at t=100, is kept
and its remaining time is positive. -/
theorem C5_witness :
    0 < remaining_seconds ⟨"w1", "Observer Ward", 360, "Top Lane (Radiant)", 0⟩ 100 :=
  (C5_sweep_expired [⟨"w1", "Observer Ward", 360, "Top Lane (Radiant)", 0⟩] 100).2
    ⟨"w1", "Observer Ward", 360, "Top Lane (Radiant)", 0⟩
    (of_decide_eq_true (by with_unfolding_all rfl))

/-- C7: an Observer Ward detection at normalized (0.1, 0.1) at t=0 is
classified "Top Lane (Radiant)" and stored with expiry 0 + 360; a
second identical detection at t=1 is discarded as a duplicate (store
unchanged); the sweep at t=361 removes the entry. -/
theorem C7_observer_scenario :
    obter_regiao_do_mapa 1 1 10 10 = "Top Lane (Radiant)" ∧
    (detectar_itens [] [⟨"Observer Ward", 1, 1⟩] 0 10 10).1 =
      [⟨"Observer Ward_Top Lane (Radiant)_0", "Observer Ward", 360,
        "Top Lane (Radiant)", 0⟩] ∧
    (detectar_itens
        [⟨"Observer Ward_Top Lane (Radiant)_0", "Observer Ward", 360,
          "Top Lane (Radiant)", 0⟩]
        [⟨"Observer Ward", 1, 1⟩] 1 10 10).1 =
      [⟨"Observer Ward_Top Lane (Radiant)_0", "Observer Ward", 360,
        "Top Lane (Radiant)", 0⟩] ∧
    (atualizar_overlay
        [⟨"Observer Ward_Top Lane (Radiant)_0", "Observer Ward", 360,
          "Top Lane (Radiant)", 0⟩] 361).1 = [] :=
  of_decide_eq_true (by with_unfolding_all rfl)

/-- C8: recording a single detection whose kind has zero lifetime never
mutates the tracked-ward store; any log event it produces is a
non-insertion notification. -/
theorem C8_zero_lifetime_no_mutation (store : List TrackedItem) (d : RawDet)
    (now w h : ℚ) (hzero : ITEM_DURATIONS d.name = some 0) :
    (detectar_itens store [d] now w h).1 = store ∧
    ∀ ev ∈ (detectar_itens store [d] now w h).2, ev.inserted = false := by
  simp only [detectar_itens, List.filterMap, hzero]
  cases hdup : is_duplicate store d.name (obter_regiao_do_mapa d.cx d.cy w h) now <;>
    simp [hzero]

/-- C8 witness: a Smoke of Deceit detection leaves the empty store
empty. -/
theorem C8_witness :
    (detectar_itens [] [⟨"Smoke of Deceit", 1, 1⟩] 0 10 10).1 = [] :=
  (C8_zero_lifetime_no_mutation [] ⟨"Smoke of Deceit", 1, 1⟩ 0 10 10 rfl).1

/-- C1 counterexample: two detections of identical kind and region with
time delta 0 (< 2.0 s) that arrive in the SAME detection pass both
create entities — the duplicate scan only consults the store as of the
start of the pass, so the same-frame clause of the claim fails. -/
theorem C1_counterexample :
    ((detectar_itens [] [⟨"Observer Ward", 1, 1⟩, ⟨"Observer Ward", 1, 1⟩] 0 10 10).1.map
        (fun it => (it.name, it.region, it.added_time))) =
      [("Observer Ward", "Top Lane (Radiant)", (0 : ℚ)),
       ("Observer Ward", "Top Lane (Radiant)", (0 : ℚ))] ∧
    (detectar_itens [] [⟨"Observer Ward", 1, 1⟩, ⟨"Observer Ward", 1, 1⟩] 0 10 10).1.length = 2 :=
  of_decide_eq_true (by with_unfolding_all rfl)

/-- C1 (amended): the duplicate window holds across detection passes:
once the earlier detection has been inserted into the store, a later
detection of the same kind and region within the 2.0 s window is
discarded — exactly one entity results, no second entity is created and
the existing entry (timer included) is untouched.  Within a single
pass, duplicates are not suppressed. -/
theorem C1_cross_pass_dedup (store : List TrackedItem) (d1 d2 : RawDet)
    (t1 t2 w h dur : ℚ)
    (hd : ITEM_DURATIONS d1.name = some dur) (hpos : 0 < dur)
    (hname : d2.name = d1.name)
    (hreg : obter_regiao_do_mapa d2.cx d2.cy w h = obter_regiao_do_mapa d1.cx d1.cy w h)
    (hwin : |t2 - t1| < DUPLICATE_THRESHOLD_SECONDS)
    (hnodup : is_duplicate store d1.name (obter_regiao_do_mapa d1.cx d1.cy w h) t1 = false) :
    (detectar_itens store [d1] t1 w h).1 =
      store ++ [mk_tracked ⟨d1.name, obter_regiao_do_mapa d1.cx d1.cy w h, t1⟩ dur] ∧
    (detectar_itens (detectar_itens store [d1] t1 w h).1 [d2] t2 w h).1 =
      (detectar_itens store [d1] t1 w h).1 := by
  have h1 : (detectar_itens store [d1] t1 w h).1 =
      store ++ [mk_tracked ⟨d1.name, obter_regiao_do_mapa d1.cx d1.cy w h, t1⟩ dur] := by
    simp [detectar_itens, hd, hnodup, hpos]
  refine ⟨h1, ?_⟩
  rw [h1]
  have hdup2 : is_duplicate
      (store ++ [mk_tracked ⟨d1.name, obter_regiao_do_mapa d1.cx d1.cy w h, t1⟩ dur])
      d1.name (obter_regiao_do_mapa d2.cx d2.cy w h) t2 = true := by
    simp only [is_duplicate, List.any_append, Bool.or_eq_true, List.any_cons, List.any_nil,
      Bool.or_false, mk_tracked]
    right
    simp [hreg, hwin]
  simp [detectar_itens, List.filterMap_cons, hname, hd, hdup2]

/-- C1 witness: the amended theorem at the concrete scenario (Observer
Ward at t=0 inserted, identical detection at t=1 discarded). -/
theorem C1_witness :
    (detectar_itens (detectar_itens [] [⟨"Observer Ward", 1, 1⟩] 0 10 10).1
        [⟨"Observer Ward", 1, 1⟩] 1 10 10).1 =
      (detectar_itens [] [⟨"Observer Ward", 1, 1⟩] 0 10 10).1 :=
  (C1_cross_pass_dedup [] ⟨"Observer Ward", 1, 1⟩ ⟨"Observer Ward", 1, 1⟩ 0 1 10 10 360
    rfl (by norm_num) rfl rfl (by norm_num [DUPLICATE_THRESHOLD_SECONDS]) rfl).2

/-- C3 counterexample: a cast attempt whose actuator call fails leaves
the hero and the ability exactly as they were — the mana is NOT reduced
(it stays 200, not 200 − 100) and `last_cast_time` is NOT updated (it
stays 0, not 10), contrary to the claim. -/
theorem C3_counterexample :
    Hero.cast
        ⟨"npc_dota_hero_lina", [⟨"lina_dragon_slave", "q", 280, 100, 0, 0⟩], 200, false, false⟩
        ⟨"lina_dragon_slave", "q", 280, 100, 0, 0⟩ ⟨"enemy1", 100, 0.25⟩ false 10 =
      ⟨false,
       ⟨"npc_dota_hero_lina", [⟨"lina_dragon_slave", "q", 280, 100, 0, 0⟩], 200, false, false⟩,
       ⟨"lina_dragon_slave", "q", 280, 100, 0, 0⟩,
       [⟨"npc_dota_hero_lina", "lina_dragon_slave", "enemy1", false⟩]⟩ ∧
    (200 : ℚ) - 100 ≠ 200 ∧ (10 : ℚ) ≠ 0 :=
  of_decide_eq_true (by with_unfolding_all rfl)

/-- C3 (amended): when the actuator reports failure, `Hero.cast`
returns `False` and performs no state change at all — the mana
deduction and the `last_cast_time` stamp happen only after a successful
actuator call, so there is nothing to roll back. -/
theorem C3_failure_no_state_change (h : Hero) (a : Ability) (e : Enemy) (now : ℚ) :
    (Hero.cast h a e false now).success = false ∧
    (Hero.cast h a e false now).hero = h ∧
    (Hero.cast h a e false now).ability = a := by
  unfold Hero.cast
  split_ifs <;> simp_all

theorem qualifies_eq (hero : Hero) (e : Enemy) (now : ℚ) (a : Ability) :
    (can_cast_skill hero a now && should_cast_skill hero e a) = spec_qualifies hero e now a := by
  simp [can_cast_skill, should_cast_skill, spec_qualifies, Ability.get_effective_damage,
    Bool.and_assoc]

theorem killsteal_abilities_none (hero : Hero) (e : Enemy) (now : ℚ) (l : List Ability)
    (hnone : l.find? (spec_qualifies hero e now) = none) :
    killsteal_abilities hero e now true l = (none, []) := by
  induction l with
  | nil => rfl
  | cons b rest ih =>
    rw [List.find?_cons] at hnone
    cases hq : spec_qualifies hero e now b
    · rw [hq] at hnone
      rw [killsteal_abilities, qualifies_eq, hq]
      simpa using ih hnone
    · rw [hq] at hnone
      cases hnone

theorem killsteal_abilities_some (hero : Hero) (e : Enemy) (now : ℚ) (l : List Ability)
    (a : Ability) (hsome : l.find? (spec_qualifies hero e now) = some a) :
    killsteal_abilities hero e now true l =
      (some ({ hero with mana := hero.mana - a.mana_cost },
             { a with last_cast_time := now }),
       [⟨hero.name, a.name, e.name, true⟩]) := by
  induction l with
  | nil => cases hsome
  | cons b rest ih =>
    rw [List.find?_cons] at hsome
    cases hq : spec_qualifies hero e now b
    · rw [hq] at hsome
      rw [killsteal_abilities, qualifies_eq, hq]
      simpa using ih hsome
    · rw [hq] at hsome
      injection hsome with hba
      subst hba
      have hq' := hq
      simp only [spec_qualifies, Bool.and_eq_true, decide_eq_true_eq] at hq'
      have hready : b.is_ready now = true := hq'.1.2
      have hmana : decide (hero.mana < b.mana_cost) = false :=
        decide_eq_false (not_lt.mpr hq'.1.1)
      rw [killsteal_abilities, qualifies_eq, hq]
      simp [Hero.cast, hready, hmana]

theorem killsteal_enemies_none (hero : Hero) (now : ℚ) (l : List Enemy)
    (hnone : first_qualifying_pair hero now l = none) :
    killsteal_enemies hero now true l = (none, []) := by
  induction l with
  | nil => rfl
  | cons e rest ih =>
    cases halive : e.is_alive
    · rw [first_qualifying_pair, if_neg (by simp [halive])] at hnone
      rw [killsteal_enemies, if_neg (by simp [halive])]
      exact ih hnone
    · rw [first_qualifying_pair, if_pos (by simp [halive])] at hnone
      cases hfind : hero.abilities.find? (spec_qualifies hero e now) with
      | some a => rw [hfind] at hnone; cases hnone
      | none =>
        rw [hfind] at hnone
        rw [killsteal_enemies, if_pos (by simp [halive, Enemy.is_enemy]),
          killsteal_abilities_none hero e now _ hfind]
        simpa using ih hnone

theorem killsteal_enemies_some (hero : Hero) (now : ℚ) (l : List Enemy)
    (e : Enemy) (a : Ability)
    (hsome : first_qualifying_pair hero now l = some (e, a)) :
    killsteal_enemies hero now true l =
      (some ({ hero with mana := hero.mana - a.mana_cost },
             { a with last_cast_time := now }),
       [⟨hero.name, a.name, e.name, true⟩]) := by
  induction l with
  | nil => cases hsome
  | cons e1 rest ih =>
    cases halive : e1.is_alive
    · rw [first_qualifying_pair, if_neg (by simp [halive])] at hsome
      rw [killsteal_enemies, if_neg (by simp [halive])]
      exact ih hsome
    · rw [first_qualifying_pair, if_pos (by simp [halive])] at hsome
      cases hfind : hero.abilities.find? (spec_qualifies hero e1 now) with
      | some b =>
        rw [hfind] at hsome
        cases hsome
        rw [killsteal_enemies, if_pos (by simp [halive, Enemy.is_enemy]),
          killsteal_abilities_some hero e now _ a hfind]
      | none =>
        rw [hfind] at hsome
        rw [killsteal_enemies, if_pos (by simp [halive, Enemy.is_enemy]),
          killsteal_abilities_none hero e1 now _ hfind]
        simpa using ih hsome

/-- C2: with the global-cooldown, channeling and invisibility gates
open and a successful actuator, one evaluation tick casts exactly on
the first (enemy, ability) pair — enemies in source order, abilities in
the fixed hero order, alive enemies only — satisfying the mana,
readiness and lethality conditions simultaneously: mana is deducted,
the `last_cast_time` of the ability and the global cooldown timestamp are
stamped, and no further cast is issued that tick; when no pair
qualifies nothing changes; at most one cast happens per tick. -/
theorem C2_first_pair_single_cast (st : KSState) (now : ℚ)
    (hgate : ¬ now - st.last_check_time < st.killsteal_cooldown)
    (hch : st.hero.channeling = false)
    (hinv : st.hero.invisible = false) :
    (first_qualifying_pair st.hero now st.enemies = none →
      killsteal st now true = (st, [])) ∧
    (∀ e a, first_qualifying_pair st.hero now st.enemies = some (e, a) →
      killsteal st now true =
        ({ st with
             hero := set_ability { st.hero with mana := st.hero.mana - a.mana_cost }
               { a with last_cast_time := now },
             last_check_time := now },
         [⟨st.hero.name, a.name, e.name, true⟩])) ∧
    (killsteal st now true).2.length ≤ 1 := by
  have hgates : killsteal st now true =
      match killsteal_enemies st.hero now true st.enemies with
      | (some (h, a), evs) =>
        ({ st with hero := set_ability h a, last_check_time := now }, evs)
      | (none, evs) => (st, evs) := by
    rw [killsteal, if_neg hgate, if_neg (by simp [hch, hinv])]
  refine ⟨?_, ?_, ?_⟩
  · intro hnone
    rw [hgates, killsteal_enemies_none st.hero now st.enemies hnone]
  · intro e a hsome
    rw [hgates, killsteal_enemies_some st.hero now st.enemies e a hsome]
  · cases hfq : first_qualifying_pair st.hero now st.enemies with
    | none =>
      rw [hgates, killsteal_enemies_none st.hero now st.enemies hfq]
      simp
    | some pair =>
      obtain ⟨e, a⟩ := pair
      rw [hgates, killsteal_enemies_some st.hero now st.enemies e a hfq]
      simp

/-- C2 witness: two enemies both qualify; only the first in source
order is targeted and a single cast is issued. -/
theorem C2_witness :
    killsteal
        ⟨⟨"hero", [⟨"spell", "q", 300, 50, 0, 0⟩], 500, false, false⟩,
         [⟨"foe1", 100, 0⟩, ⟨"foe2", 100, 0⟩], 0, 3⟩ 10 true =
      (⟨⟨"hero", [⟨"spell", "q", 300, 50, 0, 10⟩], 450, false, false⟩,
        [⟨"foe1", 100, 0⟩, ⟨"foe2", 100, 0⟩], 10, 3⟩,
       [⟨"hero", "spell", "foe1", true⟩]) := by
  have h := (C2_first_pair_single_cast
      ⟨⟨"hero", [⟨"spell", "q", 300, 50, 0, 0⟩], 500, false, false⟩,
       [⟨"foe1", 100, 0⟩, ⟨"foe2", 100, 0⟩], 0, 3⟩ 10
      (by norm_num) rfl rfl).2.1 ⟨"foe1", 100, 0⟩ ⟨"spell", "q", 300, 50, 0, 0⟩
      (of_decide_eq_true (by with_unfolding_all rfl))
  rw [h]
  exact of_decide_eq_true (by with_unfolding_all rfl)

/-- C6: hero mana 200, ability damage 280 / cost 120, enemy with magic
resistance 0.25 and health 209: the effective damage is exactly 210 >
209, the cast fires, mana drops to 80, the ability stamp and the global
cooldown timestamp are written. -/
theorem C6_numeric_scenario :
    Ability.get_effective_damage ⟨"nuke", "q", 280, 120, 0, 0⟩ 0.25 = 210 ∧
    ((209 : ℚ) < 210) ∧
    killsteal
        ⟨⟨"npc_dota_hero_lina", [⟨"nuke", "q", 280, 120, 0, 0⟩], 200, false, false⟩,
         [⟨"enemy1", 209, 0.25⟩], 0, 3⟩ 10 true =
      (⟨⟨"npc_dota_hero_lina", [⟨"nuke", "q", 280, 120, 0, 10⟩], 80, false, false⟩,
        [⟨"enemy1", 209, 0.25⟩], 10, 3⟩,
       [⟨"npc_dota_hero_lina", "nuke", "enemy1", true⟩]) :=
  of_decide_eq_true (by with_unfolding_all rfl)

theorem lookup_set_self (d : List (String × Json)) (k : String) (v : Json) :
    lookup_field (set_field d k v) k = some v := by
  induction d with
  | nil => simp [set_field, lookup_field]
  | cons p rest ih =>
    obtain ⟨k1, v1⟩ := p
    by_cases hk : k1 = k
    · simp [set_field, lookup_field, hk]
    · simp [set_field, lookup_field, hk, ih]

theorem lookup_set_other (d : List (String × Json)) (k k' : String) (v : Json)
    (hne : k' ≠ k) :
    lookup_field (set_field d k v) k' = lookup_field d k' := by
  induction d with
  | nil => simp [set_field, lookup_field, Ne.symm hne]
  | cons p rest ih =>
    obtain ⟨k1, v1⟩ := p
    by_cases hk : k1 = k
    · subst hk
      simp [set_field, lookup_field, Ne.symm hne]
    · simp [set_field, lookup_field, hk, ih]

theorem lookup_deep_update_absent (u : List (String × Json)) (k : String) :
    ∀ d, k ∉ u.map Prod.fst →
      lookup_field (deep_update d u) k = lookup_field d k := by
  induction u with
  | nil => intro d _; rfl
  | cons p rest ih =>
    intro d habs
    obtain ⟨k1, v1⟩ := p
    simp only [List.map_cons, List.mem_cons] at habs
    push_neg at habs
    rw [deep_update, ih _ habs.2, lookup_set_other _ _ _ _ habs.1]

theorem lookup_deep_update_present (u : List (String × Json)) (k : String) (v : Json) :
    ∀ d, (u.map Prod.fst).Nodup → lookup_field u k = some v →
      lookup_field (deep_update d u) k = some (merged_value (lookup_field d k) v) := by
  induction u with
  | nil => intro d _ hfind; cases hfind
  | cons p rest ih =>
    intro d hnodup hfind
    obtain ⟨k1, v1⟩ := p
    simp only [List.map_cons, List.nodup_cons] at hnodup
    by_cases hk : k1 = k
    · subst hk
      rw [lookup_field, if_pos (by simp)] at hfind
      injection hfind with hv
      subst hv
      rw [deep_update, lookup_deep_update_absent rest k1 _ hnodup.1, lookup_set_self]
    · rw [lookup_field, if_neg (by simp [hk])] at hfind
      rw [deep_update, ih _ hnodup.2 hfind, lookup_set_other _ _ _ _ (Ne.symm hk)]

/-- C9: configuration loading falls back to the built-in defaults when
the file is missing or unparsable; when it parses to an object, the
defaults are merged key by key — a key absent from the file keeps its
default value, a key present in the file takes the value from the file
(recursively merged when both sides are dicts, plain override
otherwise), and inside such a nested merge the keys absent from the
inner dict of the file keep their defaults. -/
theorem C9_config_fallback_and_merge :
    load_config none = DEFAULT_CONFIG ∧
    load_config (some none) = DEFAULT_CONFIG ∧
    (∀ u k, k ∉ u.map Prod.fst →
      lookup_field (load_config (some (some (Json.obj u)))) k =
        lookup_field DEFAULT_CONFIG k) ∧
    (∀ u k v, (u.map Prod.fst).Nodup → lookup_field u k = some v →
      lookup_field (load_config (some (some (Json.obj u)))) k =
        some (merged_value (lookup_field DEFAULT_CONFIG k) v)) ∧
    (∀ dv s, merged_value dv (Json.str s) = Json.str s) ∧
    (∀ dv q, merged_value dv (Json.num q) = Json.num q) ∧
    (∀ dv b, merged_value dv (Json.bool b) = Json.bool b) ∧
    (∀ dv l, merged_value dv (Json.arr l) = Json.arr l) ∧
    (∀ dd uu, merged_value (some (Json.obj dd)) (Json.obj uu) =
      Json.obj (deep_update dd uu)) ∧
    (∀ dd uu k2, k2 ∉ uu.map Prod.fst →
      lookup_field (deep_update dd uu) k2 = lookup_field dd k2) := by
  refine ⟨rfl, rfl, ?_, ?_, fun dv s => rfl, fun dv q => rfl, fun dv b => rfl,
    fun dv l => rfl, fun dd uu => rfl, fun dd uu k2 h => lookup_deep_update_absent uu k2 dd h⟩
  · intro u k habs
    exact lookup_deep_update_absent u k DEFAULT_CONFIG habs
  · intro u k v hnodup hfind
    exact lookup_deep_update_present u k v DEFAULT_CONFIG hnodup hfind

/-- C9 witness: a parsed file `{"check_interval": 1}` overrides that
key and leaves `"dota_window_title"` at its default. -/
theorem C9_witness :
    lookup_field (load_config (some (some (Json.obj [("check_interval", Json.num 1)]))))
        "dota_window_title" =
      lookup_field DEFAULT_CONFIG "dota_window_title" :=
  (C9_config_fallback_and_merge.2.2.1) [("check_interval", Json.num 1)]
    "dota_window_title" (by simp)

end DotaUtils
